import Mathlib

/-!
Verification development for the eea-fleet configuration generator
(src/utils/src/core.py, src/utils/src/models.py, src/utils/src/screens.py).

Python strings that undergo character-level processing are modelled as
List Char; other strings stay Lean String.  Dynamically-typed Python
values (JSON/YAML documents, dict fields) are modelled by the Json
inductive below.  External library primitives (base64, gzip, the JSON
and YAML text parsers, yaml.dump) are fallible collaborators and are
passed in as function parameters; the control flow around them is
translated from the source.
-/

namespace EeaFleet

/-- Dynamically-typed Python value as it appears after json.loads /
yaml.safe_load: null, bool, integer, string, list, dict. -/
inductive Json where
  | null : Json
  | bool (b : Bool) : Json
  | num (n : Int) : Json
  | str (s : String) : Json
  | arr (xs : List Json) : Json
  | obj (fields : List (String × Json)) : Json

/-- Python truthiness of a value: None, False, 0, "", [], {} are falsy. -/
def jsonTruthy : Json → Bool
  | .null => false
  | .bool b => b
  | .num n => n != 0
  | .str s => !s.isEmpty
  | .arr xs => !xs.isEmpty
  | .obj fs => !fs.isEmpty

/-- Python `a or b` on dynamically-typed values. -/
def pyOr (a b : Json) : Json := if jsonTruthy a then a else b

/-- Python `d.get(key, default)`: succeeds on a dict (value or default),
raises AttributeError (modelled as none) on anything else. -/
def pyGet (j : Json) (key : String) (dflt : Json) : Option Json :=
  match j with
  | .obj fs => some ((fs.lookup key).getD dflt)
  | _ => none

/-- core.py lines 629-631: strip one surrounding pair of quote characters
(`if decoded_once.startswith('"') and decoded_once.endswith('"')`). -/
def stripQuotes (s : List Char) : List Char :=
  if s.head? == some '"' && s.getLast? == some '"' then (s.drop 1).dropLast else s

/-- The chart metadata record extracted by the release decoder
(core.py lines 655-660); fields keep the dynamic values found in the
JSON document, defaulting to the empty string. -/
structure ChartMetadata where
  name : Json
  version : Json
  appVersion : Json
  description : Json

def emptyChartMetadata : ChartMetadata :=
  ⟨.str "", .str "", .str "", .str ""⟩

/-- How a caller reads the decoder result: the Python function returns a
dict, and an empty dict read through .get(key, "") yields "" for every
field. -/
def metaView : Option ChartMetadata → ChartMetadata
  | none => emptyChartMetadata
  | some m => m

/-- The external transport-decoding primitives used by
get_helm_release_secret_metadata: base64.b64decode(...).decode("utf-8"),
base64.b64decode, gzip.decompress(...).decode("utf-8"), json.loads.
Each may fail (the Python code catches the library exceptions). -/
structure DecodePrims where
  b64decodeToText : String → Option (List Char)
  b64decodeToBytes : List Char → Option (List Nat)
  gunzipToText : List Nat → Option (List Char)
  jsonParse : List Char → Option Json

/-- core.py lines 648-663: extract chart.metadata from the decoded
release JSON document.  A non-dict release document or a non-dict
metadata value raises AttributeError in the source, which the
surrounding handler turns into an empty result (none).  A missing
chart or metadata key defaults to an empty dict, giving a record of
empty fields. -/
def extractChartMeta (releaseJson : Json) : Option ChartMetadata :=
  match pyGet releaseJson "chart" (.obj []) with
  | none => none
  | some chartSection =>
    match (match chartSection with
           | .obj fs => (fs.lookup "metadata").getD (.obj [])
           | _ => Json.obj []) with
    | .obj fs =>
      some ⟨(fs.lookup "name").getD (.str ""),
            (fs.lookup "version").getD (.str ""),
            (fs.lookup "appVersion").getD (.str ""),
            (fs.lookup "description").getD (.str "")⟩
    | _ => none

/-- core.py get_helm_release_secret_metadata (lines 585-680).
fetchOk/output model the (success, text) pair returned by the command
runner for the kubectl secret fetch; every failure path of the source
returns an empty dict, modelled as none. -/
def get_helm_release_secret_metadata (P : DecodePrims) (fetchOk : Bool)
    (output : List Char) : Option ChartMetadata :=
  if !fetchOk || output.all Char.isWhitespace then none
  else
    match P.jsonParse output with
    | none => none
    | some secretData =>
      match pyGet secretData "data" (.obj []) with
      | none => none
      | some dataSection =>
        match pyGet dataSection "release" (.str "") with
        | none => none
        | some releaseData =>
          match releaseData with
          | .str s =>
            if s.isEmpty then none
            else
              match P.b64decodeToText s with
              | none => none
              | some decodedOnce =>
                match P.b64decodeToBytes (stripQuotes decodedOnce) with
                | none => none
                | some decodedTwice =>
                  match P.gunzipToText decodedTwice with
                  | none => none
                  | some decompressed =>
                    match P.jsonParse decompressed with
                    | none => none
                    | some releaseJson => extractChartMeta releaseJson
          | _ => none

/-- C2: the release-metadata decoder is a total function; a failure at
any stage (failed or blank secret fetch, JSON parse of the secret,
non-dict secret or data section, missing/empty/non-string release
payload, either base64 decode, gzip decompression, JSON parse of the
release document, or a non-dict document/metadata field) yields the
all-empty metadata record as seen by callers, and any populated result
arises only from a fully successful pipeline applied to the decoded
document — never a partially populated record. -/
theorem decoder_failure_policy_total (P : DecodePrims) (fetchOk : Bool)
    (output : List Char) :
    metaView (get_helm_release_secret_metadata P fetchOk output) = emptyChartMetadata ∨
    ∃ secretData dataSection s decodedOnce decodedTwice decompressed releaseJson,
      P.jsonParse output = some secretData ∧
      pyGet secretData "data" (.obj []) = some dataSection ∧
      pyGet dataSection "release" (.str "") = some (.str s) ∧
      s.isEmpty = false ∧
      P.b64decodeToText s = some decodedOnce ∧
      P.b64decodeToBytes (stripQuotes decodedOnce) = some decodedTwice ∧
      P.gunzipToText decodedTwice = some decompressed ∧
      P.jsonParse decompressed = some releaseJson ∧
      get_helm_release_secret_metadata P fetchOk output = extractChartMeta releaseJson := by
  unfold get_helm_release_secret_metadata
  split
  · exact Or.inl rfl
  next hok =>
    split
    next => exact Or.inl rfl
    next secretData h1 =>
      split
      next => exact Or.inl rfl
      next dataSection h2 =>
        split
        next => exact Or.inl rfl
        next releaseData h3 =>
          split
          next s =>
            split
            next => exact Or.inl rfl
            next hs =>
              split
              next => exact Or.inl rfl
              next decodedOnce h4 =>
                split
                next => exact Or.inl rfl
                next decodedTwice h5 =>
                  split
                  next => exact Or.inl rfl
                  next decompressed h6 =>
                    split
                    next => exact Or.inl rfl
                    next releaseJson h7 =>
                      exact Or.inr ⟨secretData, dataSection, s, decodedOnce,
                        decodedTwice, decompressed, releaseJson, h1, h2, h3,
                        by simpa using hs, h4, h5, h6, h7, rfl⟩
          next => exact Or.inl rfl

/-- Stripping the quote wrapper from a quote-wrapped text recovers the
inner text. -/
theorem stripQuotes_wrap (l : List Char) :
    stripQuotes ('"' :: (l ++ ['"'])) = l := by
  have hlast : ('"' :: (l ++ ['"'])).getLast? = some '"' := by
    rw [← List.cons_append]; exact List.getLast?_concat _
  unfold stripQuotes
  rw [hlast]
  simp [List.dropLast_concat]

/-- C3: round-trip.  A well-formed four-stage payload — the JSON
metadata document gzip-compressed, base64-encoded, wrapped in one pair
of quotes, base64-encoded again and stored in the data.release field of
the fetched secret — decodes to exactly the original four metadata
field values.  The transport primitives are quantified; the hypotheses
state that each decode stage inverts the corresponding encode stage of
the well-formed payload. -/
theorem decoder_roundtrip (P : DecodePrims) (n v a d : String)
    (output inner decodedTwiceSrc : List Char) (s : String)
    (bytes : List Nat)
    (hblank : output.all Char.isWhitespace = false)
    (h1 : P.jsonParse output =
      some (.obj [("data", .obj [("release", .str s)])]))
    (hs : s.isEmpty = false)
    (h2 : P.b64decodeToText s = some ('"' :: (inner ++ ['"'])))
    (h3 : P.b64decodeToBytes inner = some bytes)
    (h4 : P.gunzipToText bytes = some decodedTwiceSrc)
    (h5 : P.jsonParse decodedTwiceSrc =
      some (.obj [("chart", .obj [("metadata", .obj
        [("name", .str n), ("version", .str v),
         ("appVersion", .str a), ("description", .str d)])])])) :
    get_helm_release_secret_metadata P true output =
      some ⟨.str n, .str v, .str a, .str d⟩ := by
  unfold get_helm_release_secret_metadata
  simp [hblank, h1, h2, h3, h4, h5, hs, stripQuotes_wrap, pyGet,
    extractChartMeta, List.lookup]

/-- Concrete transport primitives that exercise the decoder on one
closed well-formed payload: each primitive recognizes exactly the
intermediate value of that payload and fails on anything else. -/
def examplePrims : DecodePrims where
  b64decodeToText := fun s =>
    if s = "PAYLOAD" then some ('"' :: ("INNER".data ++ ['"'])) else none
  b64decodeToBytes := fun t =>
    if t = "INNER".data then some [7, 7] else none
  gunzipToText := fun bs =>
    if bs = [7, 7] then some "DOC".data else none
  jsonParse := fun cs =>
    if cs = "OUT".data then
      some (.obj [("data", .obj [("release", .str "PAYLOAD")])])
    else if cs = "DOC".data then
      some (.obj [("chart", .obj [("metadata", .obj
        [("name", .str "postgres"), ("version", .str "9.9.9"),
         ("appVersion", .str "15.2"), ("description", .str "db")])])])
    else none

/-- Witness for C3: the round-trip theorem applied to the closed
example payload recovers the original metadata fields. -/
theorem decoder_roundtrip_witness :
    get_helm_release_secret_metadata examplePrims true "OUT".data =
      some ⟨.str "postgres", .str "9.9.9", .str "15.2", .str "db"⟩ :=
  decoder_roundtrip examplePrims "postgres" "9.9.9" "15.2" "db"
    "OUT".data "INNER".data "DOC".data "PAYLOAD" [7, 7]
    rfl rfl rfl rfl rfl rfl rfl

/-- core.py list_helm_releases, lines 740-746: after helm list and
helm get metadata produced chart_name, chart_version and app_version,
the release secret is decoded when chart_version or app_version is
still falsy, and each truthy decoded field replaces the current value
(Python: decoded or current). -/
def list_helm_releases_backfill (P : DecodePrims) (fetchOk : Bool)
    (output : List Char) (chart_name chart_version app_version : Json) :
    Json × Json × Json :=
  if jsonTruthy chart_version && jsonTruthy app_version then
    (chart_name, chart_version, app_version)
  else
    match get_helm_release_secret_metadata P fetchOk output with
    | none => (chart_name, chart_version, app_version)
    | some m =>
      (pyOr m.name chart_name, pyOr m.version chart_version,
       pyOr m.appVersion app_version)

/-- Counterexample for C1: a release listing that reports
chart_version "1.2.0" (with app_version empty, which triggers the
backfill) does NOT retain "1.2.0" when the decoder succeeds with
version "9.9.9" — the decoded value overwrites it. -/
theorem resolver_merge_counterexample :
    (list_helm_releases_backfill examplePrims true "OUT".data
        (.str "x") (.str "1.2.0") (.str "")).2.1 = Json.str "9.9.9" ∧
    Json.str "9.9.9" ≠ Json.str "1.2.0" := by
  refine ⟨rfl, ?_⟩
  intro h
  simp at h

/-- C1 (amended): the backfill merge is decoder-wins, not
first-known-wins.  Whenever the backfill runs (chart_version or
app_version falsy) and the decoder returns a record, each field becomes
the decoded value whenever the decoded value is truthy, and the
listing's value survives only when the decoded field is empty; in
particular a decoded non-empty version replaces an already-known
chart_version. -/
theorem resolver_merge_decoder_wins (P : DecodePrims) (fetchOk : Bool)
    (output : List Char) (cn cv av : Json) (m : ChartMetadata)
    (hm : get_helm_release_secret_metadata P fetchOk output = some m)
    (hcond : (jsonTruthy cv && jsonTruthy av) = false) :
    list_helm_releases_backfill P fetchOk output cn cv av =
      (pyOr m.name cn, pyOr m.version cv, pyOr m.appVersion av) ∧
    (jsonTruthy m.version = true →
      (list_helm_releases_backfill P fetchOk output cn cv av).2.1 = m.version) ∧
    (jsonTruthy m.version = false →
      (list_helm_releases_backfill P fetchOk output cn cv av).2.1 = cv) := by
  have hb : list_helm_releases_backfill P fetchOk output cn cv av =
      (pyOr m.name cn, pyOr m.version cv, pyOr m.appVersion av) := by
    unfold list_helm_releases_backfill
    rw [hcond, hm]
    simp
  refine ⟨hb, ?_, ?_⟩
  · intro h; rw [hb]; simp [pyOr, h]
  · intro h; rw [hb]; simp [pyOr, h]

/-- Witness for the amended C1 theorem at a closed input: the decoded
version 9.9.9 replaces the already-known 1.2.0. -/
theorem resolver_merge_decoder_wins_witness :
    (list_helm_releases_backfill examplePrims true "OUT".data
        (.str "x") (.str "1.2.0") (.str "")).2.1 = Json.str "9.9.9" :=
  (resolver_merge_decoder_wins examplePrims true "OUT".data (.str "x")
      (.str "1.2.0") (.str "")
      ⟨.str "postgres", .str "9.9.9", .str "15.2", .str "db"⟩
      rfl rfl).2.1 rfl

/-- Python str.replace with a single-character pattern and a
single-character replacement: every occurrence of c becomes d. -/
def pyReplaceChar (c d : Char) (l : List Char) : List Char :=
  l.map (fun x => if x = c then d else x)

/-- screens.py lines 1730 and 1736: replace("/", "-").replace("_", "-")
applied to a name. -/
def sanitize_name (s : String) : String :=
  ⟨pyReplaceChar '_' '-' (pyReplaceChar '/' '-' s.data)⟩

/-- screens.py generate_configuration, lines 1732-1738: the app
directory name is the sanitized "<namespace>-<chart_name>", and
app_name is normalized to it (the field is called namespace in the
source; Lean reserves that word). -/
def finalize_app_name (namespace_ chart_name : String) : String :=
  sanitize_name (namespace_ ++ "-" ++ chart_name)

/-- The finalization rule as the specification words it: the string
"<namespace>-<chart_name>" with every "/" and every "_" replaced by
"-". -/
def finalize_app_name_spec (namespace_ chart_name : String) : String :=
  ⟨(namespace_.data ++ '-' :: chart_name.data).map
    (fun c => if c = '/' || c = '_' then '-' else c)⟩

/-- C4: finalization rewrites app_name exactly as the specification
states — "<namespace>-<chart_name>" with every "/" and "_" replaced by
"-" — and in particular namespace "prod" with chart "my_chart/x"
finalizes to "prod-my-chart-x". -/
theorem finalize_app_name_correct :
    (∀ namespace_ chart_name : String,
      finalize_app_name namespace_ chart_name =
        finalize_app_name_spec namespace_ chart_name) ∧
    finalize_app_name "prod" "my_chart/x" = "prod-my-chart-x" := by
  constructor
  · intro ns cn
    unfold finalize_app_name finalize_app_name_spec sanitize_name pyReplaceChar
    have hdata : (ns ++ "-" ++ cn).data = ns.data ++ '-' :: cn.data := by
      simp [String.data_append]
    rw [hdata, List.map_map]
    congr 1
    apply List.map_congr_left
    intro c _
    by_cases h1 : c = '/'
    · subst h1; rfl
    · by_cases h2 : c = '_'
      · subst h2; rfl
      · simp [Function.comp, h1, h2]
  · rfl

/-- models.py FleetYamlConfig.rollout_strategy default. -/
def ROLLOUT_STRATEGY : List (String × String) :=
  [("maxUnavailable", "25%"), ("maxUnavailablePartitions", "0"),
   ("autoPartitionSize", "10%")]

/-- models.py FleetConfig dataclass (the namespace field is renamed
namespace_ because Lean reserves the word; chart_metadata none models
the falsy empty dict). -/
structure FleetConfig where
  app_name : String := ""
  namespace_ : String := ""
  chart_name : String := ""
  chart_version : String := ""
  helm_repo : String := "https://eea.github.io/helm-charts/"
  values : Json := .obj []
  cluster_values : Json := .obj []
  dependencies : List String := []
  target_cluster : String := ""
  is_existing_release : Bool := false
  release_name : String := ""
  chart_metadata : Option ChartMetadata := none
  rollout_strategy : List (String × String) := ROLLOUT_STRATEGY

/-- The structured content of the fleet.yaml document built by
core.py generate_fleet_yaml, before yaml.dump renders it to text.
Metadata comments are kept as (label, raw value) pairs. -/
structure FleetYamlDoc where
  metadata_comments : List (String × Json)
  defaultNamespace : String
  chart : String
  repo : String
  version : Json
  valuesFrom_name : String
  valuesFrom_key : String
  targets : Option String
  rolloutStrategy : List (String × String)

/-- core.py generate_fleet_yaml lines 1148-1170: the chart metadata
used for rendering is the one carried by the config when truthy,
otherwise — for an existing release with a release name — the result
of the release-secret decoder (live_metadata), otherwise nothing.
Passing the decoder result as a parameter keeps the command runner
external. -/
def resolved_chart_metadata (cfg : FleetConfig)
    (live_metadata : Option ChartMetadata) : Option ChartMetadata :=
  match cfg.chart_metadata with
  | some m => some m
  | none =>
    if cfg.is_existing_release && !cfg.release_name.isEmpty then
      live_metadata
    else none

/-- core.py generate_fleet_yaml (lines 1126-1216), producing the
structured document content rendered by yaml.dump. -/
def generate_fleet_yaml (cfg : FleetConfig)
    (live_metadata : Option ChartMetadata) : FleetYamlDoc :=
  let version0 : Json :=
    if cfg.chart_version.isEmpty then .str "latest" else .str cfg.chart_version
  let chart_metadata : Option ChartMetadata :=
    resolved_chart_metadata cfg live_metadata
  let comments : List (String × Json) :=
    match chart_metadata with
    | none => []
    | some m =>
      (if jsonTruthy m.name then [("# Chart Name: ", m.name)] else []) ++
      (if jsonTruthy m.version then [("# Chart Version: ", m.version)] else []) ++
      (if jsonTruthy m.appVersion then [("# App Version: ", m.appVersion)] else []) ++
      (if jsonTruthy m.description then [("# Description: ", m.description)] else [])
  let version : Json :=
    match chart_metadata with
    | none => version0
    | some m =>
      if jsonTruthy m.version &&
          (cfg.chart_version.isEmpty || cfg.chart_version == "latest") then
        m.version
      else version0
  { metadata_comments := comments
    defaultNamespace := cfg.namespace_
    chart := cfg.chart_name
    repo := cfg.helm_repo
    version := version
    valuesFrom_name := cfg.app_name ++ "-config"
    valuesFrom_key := "values.yaml"
    targets := if cfg.target_cluster.isEmpty then none else some cfg.target_cluster
    rolloutStrategy := cfg.rollout_strategy }

/-- C5: during bundle-manifest rendering, when the resolved chart
metadata carries a non-empty version and the config chart_version is
empty or the "latest" sentinel, the manifest's effective helm version
becomes the metadata version; for any other non-empty chart_version
the manifest keeps the config value unchanged. -/
theorem fleet_yaml_version_override (cfg : FleetConfig)
    (live : Option ChartMetadata) (m : ChartMetadata) (v : String)
    (hm : resolved_chart_metadata cfg live = some m) (hv : m.version = .str v)
    (hv' : v ≠ "") :
    ((cfg.chart_version = "" ∨ cfg.chart_version = "latest") →
      (generate_fleet_yaml cfg live).version = .str v) ∧
    (cfg.chart_version ≠ "" → cfg.chart_version ≠ "latest" →
      (generate_fleet_yaml cfg live).version = .str cfg.chart_version) := by
  constructor
  · intro hcv
    unfold generate_fleet_yaml
    rcases hcv with h | h <;>
      simp [hm, hv, jsonTruthy, h, String.isEmpty_iff, hv']
  · intro h1 h2
    unfold generate_fleet_yaml
    simp [hm, hv, jsonTruthy, String.isEmpty_iff, hv', h1, h2]

/-- Witness for C5 at a closed input: chart_version "latest" is
replaced by the metadata version 9.9.9. -/
theorem fleet_yaml_version_override_witness :
    (generate_fleet_yaml
        { chart_name := "postgres", chart_version := "latest",
          chart_metadata := some ⟨.str "postgres", .str "9.9.9",
            .str "", .str ""⟩ }
        none).version = Json.str "9.9.9" :=
  (fleet_yaml_version_override
      { chart_name := "postgres", chart_version := "latest",
        chart_metadata := some ⟨.str "postgres", .str "9.9.9",
          .str "", .str ""⟩ }
      none ⟨.str "postgres", .str "9.9.9", .str "", .str ""⟩ "9.9.9"
      rfl rfl (by decide)).1 (Or.inr rfl)

/-- models.py EEA_CHARTS: the static built-in fallback chart list. -/
def EEA_CHARTS : List String :=
  ["advisory-board-backend", "advisory-board-frontend", "archiva", "archives", "bdr",
   "cachet", "casservice", "cdr", "centos7dev", "cluster-role-manager", "cm-share",
   "contreg", "converters", "databridge", "datadict", "eea-website-backend",
   "eea-website-frontend", "eggrepo", "eionet-gemet", "eionetldap", "elastic6",
   "elastic7", "emrt-esd", "emrt-necd", "eni-seis", "eunis", "fise-backend",
   "fise-frontend", "freshwater", "gitea", "glosreg", "haproxy", "iwlearn",
   "jenkins-master", "jenkins-slave", "keycloak-eea", "landscapeapi", "lcp",
   "lcp-frontend", "marine", "mars-backend", "mars-frontend", "memcached",
   "msd", "netcdf-utils", "opensearch", "opensearch-dashboards", "postfix",
   "postgres", "redis", "reportnet", "reportnet3", "rn-auth", "rn-ldap",
   "rn-postgresql", "sugarcube", "tika", "tralert", "varnish", "veeam-agent",
   "volto", "wise-backend", "wise-frontend"]

/-- core.py module state for the charts cache: _cached_charts and
_charts_cache_timestamp.  Timestamps are modelled as integer seconds. -/
structure ChartsCacheState where
  cached_charts : List String
  cache_timestamp : Option Int

/-- core.py get_eea_charts lines 990-996: when the in-memory cache is
empty, adopt a non-empty disk cache load result (charts, timestamp)
wholesale; otherwise keep the in-memory state.  disk is the pair
returned by load_charts_cache_from_disk, whose own failures already
degrade to ([], none). -/
def load_disk_cache_tier (mem : ChartsCacheState)
    (disk : List String × Option Int) : ChartsCacheState :=
  if mem.cached_charts.isEmpty then
    if !disk.1.isEmpty then ⟨disk.1, disk.2⟩ else mem
  else mem

/-- core.py get_eea_charts (lines 983-1035).  now: current time in
seconds; disk: the disk-cache load result; fetchResult: the list
returned by fetch_charts_from_helm_repo, empty on any fetch failure.
Returns (charts, fetch-invoked flag, new cache state); the flag records
whether the remote fetch path ran. -/
def get_eea_charts (force_refresh allow_repo_fetch : Bool) (now : Int)
    (mem : ChartsCacheState) (disk : List String × Option Int)
    (fetchResult : List String) : List String × Bool × ChartsCacheState :=
  if !force_refresh && !(load_disk_cache_tier mem disk).cached_charts.isEmpty &&
      (match (load_disk_cache_tier mem disk).cache_timestamp with
       | some ts => decide (now - ts < 3600)
       | none => false) then
    ((load_disk_cache_tier mem disk).cached_charts, false,
     load_disk_cache_tier mem disk)
  else if !allow_repo_fetch then
    ((if (load_disk_cache_tier mem disk).cached_charts.isEmpty then EEA_CHARTS
      else (load_disk_cache_tier mem disk).cached_charts), false,
     load_disk_cache_tier mem disk)
  else if !fetchResult.isEmpty then
    (fetchResult, true, ⟨fetchResult, some now⟩)
  else if !(load_disk_cache_tier mem disk).cached_charts.isEmpty then
    ((load_disk_cache_tier mem disk).cached_charts, true,
     load_disk_cache_tier mem disk)
  else
    (EEA_CHARTS, true, load_disk_cache_tier mem disk)

/-- C6: cache-hit short-circuit.  With force_refresh false and remote
fetch allowed, if the snapshot available after the disk-cache load is
non-empty and its capture timestamp is younger than 3600 seconds, that
snapshot is returned unchanged and the remote fetch path is never
invoked. -/
theorem get_eea_charts_cache_hit (now : Int) (mem : ChartsCacheState)
    (disk : List String × Option Int) (fetchResult : List String) (t : Int)
    (h1 : (load_disk_cache_tier mem disk).cached_charts ≠ [])
    (h2 : (load_disk_cache_tier mem disk).cache_timestamp = some t)
    (h3 : now - t < 3600) :
    get_eea_charts false true now mem disk fetchResult =
      ((load_disk_cache_tier mem disk).cached_charts, false,
       load_disk_cache_tier mem disk) := by
  unfold get_eea_charts
  rw [h2]
  simp [List.isEmpty_iff, h1, h3]

/-- Lexicographic (code-point) order on strings, computed on the
underlying character lists. -/
def lexLe : List Char → List Char → Bool
  | [], _ => true
  | _ :: _, [] => false
  | a :: as, b :: bs =>
    if a < b then true else if b < a then false else lexLe as bs

/-- Witness for C6: a fresh process whose disk cache holds one chart
captured 5 seconds ago returns that snapshot without fetching. -/
theorem get_eea_charts_cache_hit_witness :
    get_eea_charts false true 10 ⟨[], none⟩ (["postgres"], some 5) [] =
      (["postgres"], false, ⟨["postgres"], some 5⟩) :=
  get_eea_charts_cache_hit 10 ⟨[], none⟩ (["postgres"], some 5) [] 5
    (by decide) rfl (by decide)

/-- C7: degradation order.  The getter is a total function (it cannot
raise); whenever the remote fetch path is invoked and the fetch fails
(empty result), the getter returns the in-memory snapshot when one
exists and the static built-in fallback otherwise, and the static
fallback list is non-empty and lexicographically sorted. -/
theorem get_eea_charts_degradation :
    (∀ (force_refresh allow_repo_fetch : Bool) (now : Int)
        (mem : ChartsCacheState) (disk : List String × Option Int),
      (get_eea_charts force_refresh allow_repo_fetch now mem disk []).2.1 = true →
      (get_eea_charts force_refresh allow_repo_fetch now mem disk []).1 =
        (if (load_disk_cache_tier mem disk).cached_charts.isEmpty then
          EEA_CHARTS
         else (load_disk_cache_tier mem disk).cached_charts)) ∧
    EEA_CHARTS ≠ [] ∧
    List.Sorted (fun a b : String => lexLe a.data b.data = true) EEA_CHARTS := by
  refine ⟨?_, by decide, by decide⟩
  intro fr arf now mem disk
  unfold get_eea_charts
  split
  · intro h; simp at h
  · split
    · intro h; simp at h
    · split
      · next hfe => simp at hfe
      · split
        · next hm =>
          intro _
          simp only [Bool.not_eq_true'] at hm
          simp [hm]
        · next hm =>
          intro _
          have hm2 : (load_disk_cache_tier mem disk).cached_charts = [] := by
            simpa [List.isEmpty_iff] using hm
          simp [hm2]

/-- Witness for C7: with an empty memory cache, no disk cache and a
failing fetch, the getter invokes the fetch path and returns the
static fallback list. -/
theorem get_eea_charts_degradation_witness :
    (get_eea_charts false true 0 ⟨[], none⟩ ([], none) []).1 = EEA_CHARTS :=
  get_eea_charts_degradation.1 false true 0 ⟨[], none⟩ ([], none) rfl

/-- Python a or b on strings: a when non-empty, else b. -/
def pyOrStr (a b : String) : String := if a.isEmpty then b else a

/-- Python a or b where a is an optional string (None or possibly
empty string are falsy). -/
def pyOrStrOpt (o : Option String) (dflt : String) : String :=
  match o with
  | some s => if s.isEmpty then dflt else s
  | none => dflt

/-- models.py DEFAULT_VALUES_TEMPLATE with the chart_name placeholder
formatted in. -/
def DEFAULT_VALUES_TEMPLATE_fmt (chart_name : String) : String :=
  "\n# Helm Values for " ++ chart_name ++
  "\nreplicaCount: 1\n\nimage:\n  repository: nginx\n  pullPolicy: IfNotPresent\n  tag: \"stable\"\n\nservice:\n  type: ClusterIP\n  port: 80\n\ningress:\n  enabled: false\n\nresources:\n  limits:\n    cpu: 500m\n    memory: 512Mi\n  requests:\n    cpu: 250m\n    memory: 128Mi\n"

/-- core.py generate_values_yaml (lines 1218-1227); dumpYaml models
yaml.dump. -/
def generate_values_yaml (dumpYaml : Json → String) (cfg : FleetConfig) : String :=
  if jsonTruthy cfg.values then dumpYaml cfg.values
  else DEFAULT_VALUES_TEMPLATE_fmt cfg.chart_name

/-- The structured content of the ConfigMap document built by
core.py generate_configmap_yaml before yaml.dump renders it. -/
structure ConfigMapDoc where
  apiVersion : String
  kind : String
  name : String
  namespace_ : String
  data : List (String × String)

/-- core.py generate_configmap_yaml (lines 1104-1124). -/
def generate_configmap_yaml (dumpYaml : Json → String) (cfg : FleetConfig) :
    ConfigMapDoc :=
  { apiVersion := "v1", kind := "ConfigMap",
    name := cfg.app_name ++ "-config", namespace_ := cfg.namespace_,
    data := [("values.yaml", pyOrStr (generate_values_yaml dumpYaml cfg) "")] }

/-- C9: the rendered config object has exactly one data key,
values.yaml, holding the rendered values document; the values document
is yaml.dump of config.values when the values mapping is non-empty and
the static per-chart default template otherwise. -/
theorem configmap_single_values_key (dumpYaml : Json → String)
    (cfg : FleetConfig) :
    (generate_configmap_yaml dumpYaml cfg).data =
      [("values.yaml", generate_values_yaml dumpYaml cfg)] ∧
    (generate_configmap_yaml dumpYaml cfg).data.length = 1 ∧
    (jsonTruthy cfg.values = true →
      generate_values_yaml dumpYaml cfg = dumpYaml cfg.values) ∧
    (jsonTruthy cfg.values = false →
      generate_values_yaml dumpYaml cfg =
        DEFAULT_VALUES_TEMPLATE_fmt cfg.chart_name) := by
  refine ⟨?_, rfl, ?_, ?_⟩
  · unfold generate_configmap_yaml pyOrStr
    by_cases h : (generate_values_yaml dumpYaml cfg).isEmpty
    · simp [h, (String.isEmpty_iff _).mp h]
    · simp [h]
  · intro h; unfold generate_values_yaml; simp [h]
  · intro h; unfold generate_values_yaml; simp [h]

/-- Witness for C9 at a closed input: non-empty values render through
the dumper, and the data list is the single values.yaml pair. -/
theorem configmap_single_values_key_witness :
    (generate_configmap_yaml (fun _ => "dumped")
        { chart_name := "postgres", values := .obj [("a", .num 1)] }).data =
      [("values.yaml", "dumped")] ∧
    generate_values_yaml (fun _ => "dumped")
        { chart_name := "postgres", values := .obj [("a", .num 1)] } = "dumped" := by
  have h := configmap_single_values_key (fun _ => "dumped")
    { chart_name := "postgres", values := .obj [("a", .num 1)] }
  exact ⟨by rw [h.1, (h.2.2.1 rfl)], h.2.2.1 rfl⟩

/-- The outcome of one generation request: the reported error, if any,
and the list of (path, content) artifacts written to disk. -/
structure GenOutcome where
  error : Option String
  files_written : List (String × String)

/-- screens.py generate_configuration, lines 1712-1766: parse the
user-supplied values text, and on success compute the storage address,
normalize app_name and write the two artifacts (fleet.yaml under the
apps tree, the configmap under the int tree).  values_parse models
yaml.safe_load on the chart_values text: error e for a raised parser
exception with message e, ok v for a parsed document.  cluster_name
and cluster_id come from get_current_rancher_context; renderFleet and
renderConfigmap model the yaml.dump-based renderers of the two
artifacts. -/
def generate_configuration (cfg : FleetConfig)
    (values_parse : Except String Json)
    (cluster_name cluster_id : Option String)
    (renderFleet renderConfigmap : FleetConfig → String) : GenOutcome :=
  match values_parse with
  | .error e =>
    { error := some ("Error parsing values: " ++ e), files_written := [] }
  | .ok v =>
    let cfg1 : FleetConfig := { cfg with values := pyOr v (.obj []) }
    let cluster_folder := sanitize_name
      (pyOrStrOpt cluster_name (pyOrStrOpt cluster_id "default"))
    let app_dir_name := finalize_app_name cfg1.namespace_ cfg1.chart_name
    let cfg2 : FleetConfig := { cfg1 with app_name := app_dir_name }
    { error := none,
      files_written :=
        [("apps/" ++ cluster_folder ++ "/" ++ app_dir_name ++ "/fleet.yaml",
          renderFleet cfg2),
         ("int/" ++ cluster_folder ++ "/" ++ app_dir_name ++ "/" ++
            app_dir_name ++ "-configmap.yaml", renderConfigmap cfg2)] }

/-- C8: when the user-supplied values text fails YAML parsing,
resolution aborts with the parser's message reported to the caller and
no artifact — neither the bundle manifest nor the config object — is
written; empty values are never substituted for the malformed input. -/
theorem values_parse_failure_aborts (cfg : FleetConfig) (e : String)
    (cluster_name cluster_id : Option String)
    (renderFleet renderConfigmap : FleetConfig → String) :
    (generate_configuration cfg (.error e) cluster_name cluster_id
        renderFleet renderConfigmap).error =
      some ("Error parsing values: " ++ e) ∧
    (generate_configuration cfg (.error e) cluster_name cluster_id
        renderFleet renderConfigmap).files_written = [] :=
  ⟨rfl, rfl⟩

/-- Python str.lower for the ASCII chart names. -/
def lowerChar (c : Char) : Char :=
  if 'A' ≤ c && c ≤ 'Z' then Char.ofNat (c.toNat + 32) else c

/-- Lowercased string (Python str.lower on the ASCII range). -/
def strLower (s : String) : String := ⟨s.data.map lowerChar⟩

/-- Boolean starts-with on character lists. -/
def startsL : List Char → List Char → Bool
  | [], _ => true
  | _ :: _, [] => false
  | c :: cs, h :: hs => c == h && startsL cs hs

/-- Python s.startswith(pre). -/
def pyStartsWith (s pre : String) : Bool := startsL pre.data s.data

/-- Boolean contiguous-substring test on character lists. -/
def containsSub (needle : List Char) : List Char → Bool
  | [] => needle.isEmpty
  | h :: hs => startsL needle (h :: hs) || containsSub needle hs

/-- Python "needle in hay" on strings. -/
def pyIn (needle hay : String) : Bool := containsSub needle.data hay.data

/-- core.py get_chart_suggestions (lines 1066-1086); eea_charts is the
catalog list obtained from get_eea_charts in cache-only mode.  The two
foldl passes mirror the two append loops of the source: first all
charts whose lowercased name starts with the lowercased query, then
all remaining charts containing it as a substring, each appended only
if not already collected. -/
def get_chart_suggestions (eea_charts : List String)
    (partial_name : String) : List String :=
  if partial_name.isEmpty then eea_charts.take 10
  else
    (eea_charts.foldl
      (fun acc chart =>
        if pyIn (strLower partial_name) (strLower chart) && !acc.contains chart
        then acc ++ [chart] else acc)
      (eea_charts.foldl
        (fun acc chart =>
          if pyStartsWith (strLower chart) (strLower partial_name)
          then acc ++ [chart] else acc)
        [])).take 10

/-- An append-if loop over a list collects exactly the filtered
elements, in order, after the initial accumulator. -/
theorem foldl_append_if_eq_filter {α : Type} (p : α → Bool) :
    ∀ (l acc : List α),
      l.foldl (fun a c => if p c then a ++ [c] else a) acc = acc ++ l.filter p := by
  intro l
  induction l with
  | nil => intro acc; simp
  | cons c l ih =>
    intro acc
    by_cases h : p c
    · simp [List.filter_cons, h, ih]
    · simp [List.filter_cons, h, ih]

/-- A dedup-append loop preserves distinctness of the accumulator. -/
theorem foldl_dedup_nodup {α : Type} [BEq α] [LawfulBEq α] (q : α → Bool) :
    ∀ (l acc : List α), acc.Nodup →
      (l.foldl (fun a c => if q c && !a.contains c then a ++ [c] else a) acc).Nodup := by
  intro l
  induction l with
  | nil => intro acc h; simpa using h
  | cons c l ih =>
    intro acc h
    simp only [List.foldl_cons]
    by_cases hc : (q c && !acc.contains c) = true
    · rw [if_pos hc]
      apply ih
      rw [List.nodup_append]
      refine ⟨h, List.nodup_singleton c, ?_⟩
      intro x hx hx'
      rcases List.mem_singleton.mp hx' with rfl
      have : acc.contains x = false := by
        have hand := hc
        simp only [Bool.and_eq_true] at hand
        simpa using hand.2
      rw [List.contains, Bool.eq_false_iff] at this
      exact this (List.elem_iff.mpr hx)
    · rw [if_neg hc]
      exact ih acc h

/-- A dedup-append loop appends, after the initial accumulator, only
elements of the traversed list that satisfy the test and were not
already in the initial accumulator. -/
theorem foldl_dedup_decomp {α : Type} [BEq α] [LawfulBEq α] (q : α → Bool) :
    ∀ (l acc : List α), ∃ extras,
      l.foldl (fun a c => if q c && !a.contains c then a ++ [c] else a) acc =
        acc ++ extras ∧
      ∀ b ∈ extras, q b = true ∧ b ∈ l ∧ ¬ b ∈ acc := by
  intro l
  induction l with
  | nil => intro acc; exact ⟨[], by simp, by simp⟩
  | cons c l ih =>
    intro acc
    simp only [List.foldl_cons]
    by_cases hc : (q c && !acc.contains c) = true
    · rw [if_pos hc]
      obtain ⟨ex, hex, hmem⟩ := ih (acc ++ [c])
      refine ⟨c :: ex, ?_, ?_⟩
      · rw [hex]; simp
      · intro b hb
        rcases List.mem_cons.mp hb with rfl | hb'
        · have hand := hc
          simp only [Bool.and_eq_true] at hand
          refine ⟨hand.1, List.mem_cons_self _ _, ?_⟩
          have hbc : acc.contains b = false := by simpa using hand.2
          rw [List.contains, Bool.eq_false_iff] at hbc
          exact fun hmem' => hbc (List.elem_iff.mpr hmem')
        · obtain ⟨hq, hl, hnacc⟩ := hmem b hb'
          exact ⟨hq, List.mem_cons_of_mem _ hl,
            fun h => hnacc (List.mem_append_left _ h)⟩
    · rw [if_neg hc]
      obtain ⟨ex, hex, hmem⟩ := ih acc
      refine ⟨ex, hex, ?_⟩
      intro b hb
      obtain ⟨hq, hl, hnacc⟩ := hmem b hb
      exact ⟨hq, List.mem_cons_of_mem _ hl, hnacc⟩

/-- C10: for every query the suggestion list has at most 10 entries
and no duplicates (given the catalog invariant that chart names are
unique within a snapshot), every returned name that starts with the
lowercased query comes before every returned name that merely contains
it, and the empty query returns the first 10 catalog entries. -/
theorem chart_suggestions_shape (eea_charts : List String)
    (partial_name : String) (hnd : eea_charts.Nodup) :
    (get_chart_suggestions eea_charts partial_name).length ≤ 10 ∧
    (get_chart_suggestions eea_charts partial_name).Nodup ∧
    (∃ A B, get_chart_suggestions eea_charts partial_name = A ++ B ∧
      (∀ a ∈ A, pyStartsWith (strLower a) (strLower partial_name) = true) ∧
      (∀ b ∈ B, pyStartsWith (strLower b) (strLower partial_name) = false ∧
        pyIn (strLower partial_name) (strLower b) = true)) ∧
    (partial_name = "" →
      get_chart_suggestions eea_charts partial_name = eea_charts.take 10) := by
  by_cases hp : partial_name.isEmpty = true
  · obtain rfl : partial_name = "" := (String.isEmpty_iff _).mp hp
    unfold get_chart_suggestions
    rw [if_pos hp]
    exact ⟨List.length_take_le _ _,
      List.Nodup.sublist (List.take_sublist _ _) hnd,
      ⟨eea_charts.take 10, [], by simp, fun a _ => rfl,
        fun b hb => absurd hb (List.not_mem_nil b)⟩,
      fun _ => rfl⟩
  · have hp' : partial_name.isEmpty = false := by simpa using hp
    unfold get_chart_suggestions
    rw [if_neg hp]
    have h1 : eea_charts.foldl
        (fun acc chart =>
          if pyStartsWith (strLower chart) (strLower partial_name) then
            acc ++ [chart]
          else acc) [] =
        [] ++ eea_charts.filter
          (fun chart => pyStartsWith (strLower chart) (strLower partial_name)) :=
      foldl_append_if_eq_filter _ eea_charts []
    rw [List.nil_append] at h1
    obtain ⟨ex, hex, hmem⟩ :
        ∃ extras, eea_charts.foldl
          (fun acc chart =>
            if pyIn (strLower partial_name) (strLower chart) &&
                !acc.contains chart then
              acc ++ [chart]
            else acc)
          (eea_charts.filter
            (fun chart => pyStartsWith (strLower chart) (strLower partial_name))) =
          eea_charts.filter
            (fun chart => pyStartsWith (strLower chart) (strLower partial_name)) ++
            extras ∧
        ∀ b ∈ extras,
          pyIn (strLower partial_name) (strLower b) = true ∧ b ∈ eea_charts ∧
          ¬ b ∈ eea_charts.filter
            (fun chart => pyStartsWith (strLower chart) (strLower partial_name)) :=
      foldl_dedup_decomp _ eea_charts _
    have hnodup :
        (eea_charts.filter
          (fun chart => pyStartsWith (strLower chart) (strLower partial_name)) ++
          ex).Nodup :=
      hex ▸ foldl_dedup_nodup _ eea_charts _ (List.Nodup.filter _ hnd)
    rw [h1, hex]
    refine ⟨List.length_take_le _ _,
      List.Nodup.sublist (List.take_sublist _ _) hnodup, ?_, ?_⟩
    · rw [List.take_append_eq_append_take]
      refine ⟨_, _, rfl, ?_, ?_⟩
      · intro a ha
        have ha' := List.take_subset _ _ ha
        exact (List.mem_filter.mp ha').2
      · intro b hb
        have hb' := List.take_subset _ _ hb
        obtain ⟨hq, hl, hnacc⟩ := hmem b hb'
        refine ⟨?_, hq⟩
        by_cases hsw : pyStartsWith (strLower b) (strLower partial_name) = true
        · exact absurd (List.mem_filter.mpr ⟨hl, hsw⟩) hnacc
        · simpa using hsw
    · intro h0
      rw [h0] at hp'
      exact absurd hp' (by decide)

/-- Witness for C10 on a closed catalog and query. -/
theorem chart_suggestions_shape_witness :
    (["postgres", "redis"] : List String).Nodup ∧
    (get_chart_suggestions ["postgres", "redis"] "po").length ≤ 10 :=
  ⟨by decide, (chart_suggestions_shape ["postgres", "redis"] "po" (by decide)).1⟩

end EeaFleet

